import Mathlib

/-!
# Multiplikationskoll — shallow embedding of the session controller

This file embeds the logical core of `src/App.tsx` (a multiplication-table
quiz): question generation, answer evaluation and scoring, the session state
machine, and history persistence.  Presentation-only state (sounds, confetti,
colours, the typed-input buffer, the fractional countdown display) is not part
of the model; the per-question countdown interval and the feedback-delay
`setTimeout` are modelled as explicit pieces of state (`timerActive`,
`pendingNext`) because their firing and cancellation are observable.

JS numbers are modelled as `Nat`/`ℤ` where the source only ever holds
integers, and as `ℚ` for elapsed seconds (`Date.now()` deltas divided by
1000).  Randomness (`Math.random()`) is modelled as an oracle `Rand` supplying
the two `Math.floor(Math.random() * n)` draws per question slot; validity of
the oracle (`Rand.Valid`) records the ranges `Math.random` guarantees.
-/

namespace Multiplikationskoll

/-- `enum GameMode` from the source. -/
inductive GameMode where
  | MENU
  | PRACTICE_SETUP
  | PLAYING
  | RESULTS
deriving DecidableEq, Repr

/-- `enum PlayType` from the source. -/
inductive PlayType where
  | PRACTICE
  | TEST
deriving DecidableEq, Repr

/-- `interface Question` from the source. -/
structure Question where
  a : Nat
  b : Nat
  answer : Nat
  table : Nat
deriving DecidableEq, Repr

/-- Default used to model an (unreachable) out-of-range `questions[currentIndex]`. -/
def qdefault : Question := ⟨0, 0, 0, 0⟩

/-- `interface Result` from the source.  `userAnswer` is `number | null`
(`null` = timeout / "no answer"); elapsed seconds are rational. -/
structure Result where
  question : Question
  userAnswer : Option ℤ
  isCorrect : Bool
  timeTaken : ℚ
  points : ℤ
deriving DecidableEq, Repr

/-- `interface HistoryEntry` from the source. -/
structure HistoryEntry where
  id : String
  date : String
  type : PlayType
  score : Nat
  total : Nat
  points : ℤ
  isPassed : Bool
deriving DecidableEq, Repr

-- Constants from the source.

def MAX_TIME_PER_QUESTION : ℚ := 6

def MAX_POINTS_PER_QUESTION : ℚ := 6

def TEST_QUESTION_COUNT : Nat := 40

def PASS_SCORE_THRESHOLD : Nat := 36

def PASS_SPEED_THRESHOLD : ℤ := 120

/-- Oracle for `Math.random()`: for question slot `i`, `tableIdx i` models
`Math.floor(Math.random() * tables.length)` and `factorIdx i` models
`Math.floor(Math.random() * 10)`. -/
structure Rand where
  tableIdx : Nat → Nat
  factorIdx : Nat → Nat

/-- The ranges `Math.floor(Math.random() * n)` guarantees (for `n > 0`). -/
def Rand.Valid (rnd : Rand) (tables : List Nat) : Prop :=
  ∀ i, rnd.tableIdx i < tables.length ∧ rnd.factorIdx i < 10

/-- `generateQuestions` from the source: 40 slots, each drawing a table from
`tables` and a second factor in 1..10.  The `type` parameter is accepted and
ignored, as in the source. -/
def generateQuestions (_type : PlayType) (rnd : Rand) (tables : List Nat) :
    List Question :=
  (List.range TEST_QUESTION_COUNT).map fun i =>
    let a := tables.getD (rnd.tableIdx i) 0
    let b := rnd.factorIdx i + 1
    { a := a, b := b, answer := a * b, table := a }

/-- The component state relevant to the session controller.  `pendingNext`
models the armed `setTimeout(() => nextQuestion(newResults), delay)` (holding
the captured `newResults`); `timerActive` models whether the countdown
interval is currently armed by the timer `useEffect`. -/
structure AppState where
  mode : GameMode
  playType : PlayType
  selectedTables : List Nat
  questions : List Question
  currentIndex : Nat
  results : List Result
  showFeedback : Bool
  history : List HistoryEntry
  pendingNext : Option (List Result)
  timerActive : Bool
deriving DecidableEq, Repr

/-- The timer `useEffect`: the countdown interval is armed exactly when
`mode === PLAYING && !showFeedback && playType === TEST`, and cleared
otherwise (including by the cleanup on leaving `PLAYING`). -/
def syncTimerEffect (s : AppState) : AppState :=
  { s with timerActive :=
      decide (s.mode = GameMode.PLAYING) && !s.showFeedback &&
        decide (s.playType = PlayType.TEST) }

/-- `resetQuestionState` from the source (the input buffer, countdown value
and feedback type it also resets are presentational; `startTimeRef` is the
environment clock). -/
def resetQuestionState (s : AppState) : AppState :=
  { s with showFeedback := false }

/-- `startSession` from the source. -/
def startSession (type : PlayType) (rnd : Rand) (tables : List Nat)
    (s : AppState) : AppState :=
  resetQuestionState
    { s with
        questions := generateQuestions type rnd tables
        playType := type
        currentIndex := 0
        results := []
        mode := GameMode.PLAYING }

/-- `currentResults.filter(r => r.isCorrect).length` from the source. -/
def totalCorrectOf (rs : List Result) : Nat :=
  (rs.filter (fun r => r.isCorrect)).length

/-- `currentResults.reduce((sum, r) => sum + r.points, 0)` from the source. -/
def totalPointsOf (rs : List Result) : ℤ :=
  rs.foldl (fun sum r => sum + r.points) 0

/-- The `passed` expression of `nextQuestion`:
`playType === TEST && (totalCorrect >= 36 || totalPoints >= 120)`. -/
def sessionPassed (pt : PlayType) (totalCorrect : Nat) (totalPoints : ℤ) :
    Bool :=
  decide (pt = PlayType.TEST) &&
    (decide (PASS_SCORE_THRESHOLD ≤ totalCorrect) ||
      decide (PASS_SPEED_THRESHOLD ≤ totalPoints))

/-- The points computation of `handleAnswer`:
`Math.max(1, Math.ceil(MAX_POINTS * (1 - timeTaken / MAX_TIME)))` when
correct, else `0`. -/
def pointsFor (isCorrect : Bool) (timeTaken : ℚ) : ℤ :=
  if isCorrect then
    max 1 ⌈MAX_POINTS_PER_QUESTION * (1 - timeTaken / MAX_TIME_PER_QUESTION)⌉
  else 0

/-- The `Result` record built by `handleAnswer`:
`isCorrect = (val === currentQ.answer)` (`null` never equals a number),
`points` as in `pointsFor`. -/
def evalAnswer (val : Option ℤ) (timeTaken : ℚ) (s : AppState) : Result :=
  let currentQ := s.questions.getD s.currentIndex qdefault
  let isCorrect := decide (val = some (currentQ.answer : ℤ))
  { question := currentQ, userAnswer := val, isCorrect := isCorrect,
    timeTaken := timeTaken, points := pointsFor isCorrect timeTaken }

/-- `handleAnswer` from the source.  `val = none` models the `null` of a
timeout; `timeTaken` is `(Date.now() - startTimeRef.current) / 1000` supplied
by the environment.  The sounds/confetti/feedback-type branches are
presentational; arming the feedback delay is modelled by `pendingNext`. -/
def handleAnswer (val : Option ℤ) (timeTaken : ℚ) (s : AppState) : AppState :=
  if s.showFeedback then s
  else
    let newResults := s.results ++ [evalAnswer val timeTaken s]
    { s with
        results := newResults
        showFeedback := true
        pendingNext := some newResults }

/-- `nextQuestion` from the source; `id`/`date` are the environment's
`Date.now().toString()` / `new Date().toLocaleString('sv-SE')`. -/
def nextQuestion (id date : String) (currentResults : List Result)
    (s : AppState) : AppState :=
  if s.currentIndex < s.questions.length - 1 then
    resetQuestionState { s with currentIndex := s.currentIndex + 1 }
  else
    let totalCorrect := totalCorrectOf currentResults
    let totalPoints := totalPointsOf currentResults
    let passed := sessionPassed s.playType totalCorrect totalPoints
    let newEntry : HistoryEntry :=
      { id := id, date := date, type := s.playType, score := totalCorrect,
        total := s.questions.length, points := totalPoints,
        isPassed := passed }
    { s with
        mode := GameMode.RESULTS
        history := (newEntry :: s.history).take 20 }

/-- `toggleTable`'s update of `selectedTables`:
`prev.includes(t) ? prev.filter(x => x !== t) : [...prev, t]`. -/
def toggleTable (t : Nat) (sel : List Nat) : List Nat :=
  if t ∈ sel then sel.filter (fun x => x ≠ t) else sel ++ [t]

/-- The `stats` figures consumed by the Results screen's `isPassed`
(`useMemo`): `null` when `results.length === 0` (the `needsPractice` and
`wrongAnswers` fields it also computes are display-only and unused by
`isPassed`). -/
structure Stats where
  totalCorrect : Nat
  totalPoints : ℤ
deriving DecidableEq, Repr

/-- The guard and aggregates of the `stats` `useMemo`. -/
def statsOf (results : List Result) : Option Stats :=
  if results.length = 0 then none
  else
    some { totalCorrect := totalCorrectOf results
           totalPoints := totalPointsOf results }

/-- The Results screen's `isPassed` expression:
`playType === TEST && stats && (stats.totalCorrect >= 36 || stats.totalPoints >= 120)`
(a nullish `stats` makes the whole expression falsy). -/
def isPassed (pt : PlayType) (results : List Result) : Bool :=
  decide (pt = PlayType.TEST) &&
    (match statsOf results with
     | none => false
     | some st =>
        decide (PASS_SCORE_THRESHOLD ≤ st.totalCorrect) ||
          decide (PASS_SPEED_THRESHOLD ≤ st.totalPoints))

/-- The discrete external events the UI can deliver to the controller. -/
inductive Event where
  | selectType (t : PlayType)
  | toggleTable (t : Nat)
  | clickStart (rnd : Rand)
  | submitAnswer (v : ℤ) (timeTaken : ℚ)
  | timerTimeout (timeTaken : ℚ)
  | delayFire (id date : String)
  | clickMenu
  | clearHistory

/-- One event step.  Guards model where each handler is reachable in the UI:
the menu buttons exist only in `MENU`, the table grid and the start button
only in `PRACTICE_SETUP` (the start button is `disabled` when no table is
selected), answer input only in `PLAYING`; the countdown can only fire while
its interval is armed, and the feedback delay only while its `setTimeout` is
pending.  After any state change the timer `useEffect` re-runs
(`syncTimerEffect`).  Note that the pending feedback delay (`pendingNext`) is
never cancelled by any transition, exactly as in the source. -/
def step (e : Event) (s : AppState) : AppState :=
  match e with
  | .selectType t =>
      if s.mode = GameMode.MENU then
        syncTimerEffect { s with playType := t, mode := GameMode.PRACTICE_SETUP }
      else s
  | .toggleTable t =>
      if s.mode = GameMode.PRACTICE_SETUP then
        { s with selectedTables := toggleTable t s.selectedTables }
      else s
  | .clickStart rnd =>
      if s.mode = GameMode.PRACTICE_SETUP ∧ ¬ s.selectedTables.length = 0 then
        syncTimerEffect (startSession s.playType rnd s.selectedTables s)
      else s
  | .submitAnswer v timeTaken =>
      if s.mode = GameMode.PLAYING then
        syncTimerEffect (handleAnswer (some v) timeTaken s)
      else s
  | .timerTimeout timeTaken =>
      if s.timerActive then syncTimerEffect (handleAnswer none timeTaken s)
      else s
  | .delayFire id date =>
      match s.pendingNext with
      | some rs =>
          syncTimerEffect (nextQuestion id date rs { s with pendingNext := none })
      | none => s
  | .clickMenu => syncTimerEffect { s with mode := GameMode.MENU }
  | .clearHistory =>
      if s.mode = GameMode.MENU then { s with history := [] } else s

/-- Initial state (fresh profile / malformed storage recovered to defaults). -/
def initState : AppState :=
  { mode := GameMode.MENU
    playType := PlayType.PRACTICE
    selectedTables := []
    questions := []
    currentIndex := 0
    results := []
    showFeedback := false
    history := []
    pendingNext := none
    timerActive := false }

/-- Run a list of events from a state. -/
def runEvents (es : List Event) (s : AppState) : AppState :=
  es.foldl (fun s e => step e s) s

/-- A deterministic oracle used for concrete runs. -/
def rnd0 : Rand := ⟨fun _ => 0, fun _ => 0⟩

/-- A full 20-entry history (ids "0".."19", newest first), as after 20
completed sessions. -/
def c5FullState : AppState :=
  { initState with
      history := (List.range 20).map fun i =>
        { id := toString i, date := "d", type := PlayType.TEST, score := 0,
          total := 40, points := 0, isPassed := false } }

/-- The oldest entry of `c5FullState`'s history. -/
def c5Oldest : HistoryEntry :=
  { id := "19", date := "d", type := PlayType.TEST, score := 0, total := 40,
    points := 0, isPassed := false }

/-- The setup screen with no table selected. -/
def c6SetupState : AppState :=
  { initState with mode := GameMode.PRACTICE_SETUP }

/-- A state in the feedback interval (question already answered). -/
def c7FeedbackState : AppState :=
  { initState with mode := GameMode.PLAYING, showFeedback := true }

/-! ## General lemmas -/

lemma length_generateQuestions (t : PlayType) (rnd : Rand) (tables : List Nat) :
    (generateQuestions t rnd tables).length = TEST_QUESTION_COUNT := by
  simp [generateQuestions]

lemma sessionPassed_eq_true_iff (pt : PlayType) (tc : Nat) (tp : ℤ) :
    sessionPassed pt tc tp = true ↔
      pt = PlayType.TEST ∧ (36 ≤ tc ∨ 120 ≤ tp) := by
  simp [sessionPassed, PASS_SCORE_THRESHOLD, PASS_SPEED_THRESHOLD]

lemma nextQuestion_completes (id date : String) (rs : List Result)
    (s : AppState) (hc : ¬ s.currentIndex < s.questions.length - 1) :
    (nextQuestion id date rs s).history =
      { id := id, date := date, type := s.playType,
        score := totalCorrectOf rs, total := s.questions.length,
        points := totalPointsOf rs,
        isPassed :=
          sessionPassed s.playType (totalCorrectOf rs) (totalPointsOf rs) } ::
        s.history.take 19 := by
  simp only [nextQuestion, if_neg hc]
  exact List.take_succ_cons

/-! ## C1 — pass rule at session completion -/

/-- C1: at session completion (the terminal branch of `nextQuestion`), the
stored entry's `passed` is true iff the session is a Test and
`correctCount >= 36` or `totalPoints >= 120`; a Practice session is never
marked passed. -/
theorem c1_pass_rule (id date : String) (rs : List Result) (s : AppState)
    (hc : ¬ s.currentIndex < s.questions.length - 1) :
    ∃ e, (nextQuestion id date rs s).history.head? = some e ∧
      (e.isPassed = true ↔
        s.playType = PlayType.TEST ∧
          (36 ≤ totalCorrectOf rs ∨ 120 ≤ totalPointsOf rs)) ∧
      (s.playType = PlayType.PRACTICE → e.isPassed = false) := by
  refine ⟨{ id := id, date := date, type := s.playType,
            score := totalCorrectOf rs, total := s.questions.length,
            points := totalPointsOf rs,
            isPassed :=
              sessionPassed s.playType (totalCorrectOf rs)
                (totalPointsOf rs) },
          ?_, ?_, ?_⟩
  · rw [nextQuestion_completes id date rs s hc, List.head?_cons]
  · exact sessionPassed_eq_true_iff s.playType _ _
  · intro hp
    simp [sessionPassed, hp]

/-- Witness for C1: completing a (trivial) Practice session stores a
non-passed entry. -/
theorem c1_pass_rule_witness :
    (¬ initState.currentIndex < initState.questions.length - 1) ∧
      ∃ e, (nextQuestion "1" "d" [] initState).history.head? = some e ∧
        (e.isPassed = true ↔
          initState.playType = PlayType.TEST ∧
            (36 ≤ totalCorrectOf [] ∨ 120 ≤ totalPointsOf [])) ∧
        (initState.playType = PlayType.PRACTICE → e.isPassed = false) :=
  ⟨by decide, c1_pass_rule "1" "d" [] initState (by decide)⟩

/-! ## C2 — points awarded -/

/-- C2: the `Result` appended by `handleAnswer` carries
`points = max(1, ceil(6 * (1 - timeTaken / 6)))` when correct and `0` when
incorrect (in particular on a timeout, `val = none`). -/
theorem c2_points_formula (val : Option ℤ) (tt : ℚ) (s : AppState)
    (hfb : s.showFeedback = false) :
    ∃ r, (handleAnswer val tt s).results = s.results ++ [r] ∧
      (r.isCorrect = true → r.points = max 1 ⌈(6 : ℚ) * (1 - tt / 6)⌉) ∧
      (r.isCorrect = false → r.points = 0) ∧
      (val = none → r.points = 0) := by
  refine ⟨evalAnswer val tt s, ?_, ?_, ?_, ?_⟩
  · simp [handleAnswer, hfb]
  · intro h
    show pointsFor (evalAnswer val tt s).isCorrect tt = _
    rw [h]
    simp [pointsFor, MAX_POINTS_PER_QUESTION, MAX_TIME_PER_QUESTION]
  · intro h
    show pointsFor (evalAnswer val tt s).isCorrect tt = 0
    rw [h]
    simp [pointsFor]
  · intro h
    subst h
    show pointsFor (evalAnswer none tt s).isCorrect tt = 0
    simp [evalAnswer, pointsFor]

/-- Witness for C2: an immediate correct answer to the default question. -/
theorem c2_points_formula_witness :
    initState.showFeedback = false ∧
      ∃ r, (handleAnswer (some 0) 0 initState).results =
          initState.results ++ [r] ∧
        (r.isCorrect = true → r.points = max 1 ⌈(6 : ℚ) * (1 - 0 / 6)⌉) ∧
        (r.isCorrect = false → r.points = 0) ∧
        ((some 0 : Option ℤ) = none → r.points = 0) :=
  ⟨rfl, c2_points_formula (some 0) 0 initState rfl⟩

/-! ## C3 — question generation -/

/-- C3: with a non-empty table selection and an in-range random oracle,
generation yields exactly 40 questions, each drawn from the selected tables
with first factor equal to its table, second factor in 1..10, and product
equal to the product of the factors. -/
theorem c3_generation_shape (t : PlayType) (rnd : Rand) (tables : List Nat)
    (_hne : tables ≠ []) (hv : rnd.Valid tables) :
    (generateQuestions t rnd tables).length = 40 ∧
    ∀ q ∈ generateQuestions t rnd tables,
      q.table ∈ tables ∧ q.a = q.table ∧ 1 ≤ q.b ∧ q.b ≤ 10 ∧
        q.answer = q.a * q.b := by
  refine ⟨length_generateQuestions t rnd tables, ?_⟩
  intro q hq
  simp only [generateQuestions, List.mem_map, List.mem_range] at hq
  obtain ⟨i, hi, rfl⟩ := hq
  obtain ⟨h1, h2⟩ := hv i
  refine ⟨?_, rfl, Nat.le_add_left 1 _, ?_, rfl⟩
  · show tables.getD (rnd.tableIdx i) 0 ∈ tables
    rw [List.getD_eq_getElem tables 0 h1]
    exact List.getElem_mem h1
  · show rnd.factorIdx i + 1 ≤ 10
    omega

lemma rnd0_valid_single : rnd0.Valid [3] := by
  intro i
  constructor
  · show (0 : Nat) < 1
    decide
  · show (0 : Nat) < 10
    decide

/-- Witness for C3: a concrete oracle over the single table 3. -/
theorem c3_generation_shape_witness :
    ([3] : List Nat) ≠ [] ∧ rnd0.Valid [3] ∧
      ((generateQuestions PlayType.TEST rnd0 [3]).length = 40 ∧
        ∀ q ∈ generateQuestions PlayType.TEST rnd0 [3],
          q.table ∈ [3] ∧ q.a = q.table ∧ 1 ≤ q.b ∧ q.b ≤ 10 ∧
            q.answer = q.a * q.b) :=
  ⟨by decide, rnd0_valid_single,
    c3_generation_shape PlayType.TEST rnd0 [3] (by decide) rnd0_valid_single⟩

/-! ## C4 — correctness of answer evaluation -/

/-- C4: the appended `Result` records the submitted value, and is correct
exactly when that value equals the question's product; a timeout
(`val = none`, "no answer") is never correct. -/
theorem c4_is_correct_iff (val : Option ℤ) (tt : ℚ) (s : AppState)
    (hfb : s.showFeedback = false) :
    ∃ r, (handleAnswer val tt s).results = s.results ++ [r] ∧
      r.userAnswer = val ∧
      r.question = s.questions.getD s.currentIndex qdefault ∧
      (r.isCorrect = true ↔ val = some (r.question.answer : ℤ)) ∧
      (val = none → r.isCorrect = false) := by
  refine ⟨evalAnswer val tt s, ?_, rfl, rfl, ?_, ?_⟩
  · simp [handleAnswer, hfb]
  · simp [evalAnswer]
  · intro h
    subst h
    simp [evalAnswer]

/-- Witness for C4: a wrong submission to the default question. -/
theorem c4_is_correct_iff_witness :
    initState.showFeedback = false ∧
      ∃ r, (handleAnswer (some 7) 1 initState).results =
          initState.results ++ [r] ∧
        r.userAnswer = some 7 ∧
        r.question = initState.questions.getD initState.currentIndex qdefault ∧
        (r.isCorrect = true ↔ (some 7 : Option ℤ) = some (r.question.answer : ℤ)) ∧
        ((some 7 : Option ℤ) = none → r.isCorrect = false) :=
  ⟨rfl, c4_is_correct_iff (some 7) 1 initState rfl⟩

/-! ## C5 — history cap and eviction -/

/-- C5: on completion the history becomes the new entry followed by the
first 19 old entries: it has at most 20 entries, the just-completed session
is first with the old order preserved, and when the history was already full
(21st completion) the oldest stored entry — distinct from the survivors —
is gone. -/
theorem c5_history_cap (id date : String) (rs : List Result) (s : AppState)
    (hc : ¬ s.currentIndex < s.questions.length - 1) :
    (nextQuestion id date rs s).history.length ≤ 20 ∧
    (∃ e, (nextQuestion id date rs s).history = e :: s.history.take 19 ∧
       e.type = s.playType ∧ e.score = totalCorrectOf rs ∧
       e.points = totalPointsOf rs) ∧
    (∀ old e, s.history.length = 20 → s.history.getLast? = some old →
       s.history.Nodup →
       (nextQuestion id date rs s).history.head? = some e → old ≠ e →
       old ∉ (nextQuestion id date rs s).history) := by
  have hh := nextQuestion_completes id date rs s hc
  refine ⟨?_, ⟨_, hh, rfl, rfl, rfl⟩, ?_⟩
  · rw [hh]
    have := s.history.length_take_le 19
    simp only [List.length_cons]
    omega
  · intro old e hlen hlast hnd hhead hne
    rw [hh] at hhead ⊢
    rw [List.head?_cons, Option.some_inj] at hhead
    subst hhead
    have h19 : (19 : Nat) < s.history.length := by omega
    rw [List.getLast?_eq_getElem?] at hlast
    simp only [hlen] at hlast
    rw [show (20 : Nat) - 1 = 19 from rfl,
      List.getElem?_eq_getElem h19, Option.some_inj] at hlast
    intro hmem
    rcases List.mem_cons.mp hmem with h | h
    · exact hne h
    · obtain ⟨i, hil, hi⟩ := List.mem_iff_getElem.mp h
      rw [List.getElem_take] at hi
      have hlt : i < 19 := by
        rw [List.length_take, hlen] at hil
        omega
      have hi19 : i < s.history.length := by omega
      have : i = 19 :=
        (@List.Nodup.getElem_inj_iff _ _ hnd i hi19 19 h19).mp
          (hi.trans hlast.symm)
      omega

/-- Witness for C5: completing a session on a full 20-entry history with
pairwise distinct entries evicts the oldest. -/
theorem c5_history_cap_witness :
    (¬ c5FullState.currentIndex < c5FullState.questions.length - 1) ∧
      ((nextQuestion "20" "d" [] c5FullState).history.length ≤ 20 ∧
       (∃ e, (nextQuestion "20" "d" [] c5FullState).history =
            e :: c5FullState.history.take 19 ∧
          e.type = c5FullState.playType ∧ e.score = totalCorrectOf [] ∧
          e.points = totalPointsOf []) ∧
       (∀ old e, c5FullState.history.length = 20 →
          c5FullState.history.getLast? = some old →
          c5FullState.history.Nodup →
          (nextQuestion "20" "d" [] c5FullState).history.head? = some e →
          old ≠ e →
          old ∉ (nextQuestion "20" "d" [] c5FullState).history)) ∧
      c5Oldest ∉ (nextQuestion "20" "d" [] c5FullState).history :=
  ⟨by decide, c5_history_cap "20" "d" [] c5FullState (by decide), by decide⟩

/-! ## C6 — start rejected with no tables selected -/

/-- C6: delivering the start-session click while `selectedTables` is empty
leaves the state unchanged (the button is disabled): the mode does not
change to `PLAYING`, no questions are generated, and no fault occurs
(`step` is total). -/
theorem c6_start_needs_tables (rnd : Rand) (s : AppState)
    (h : s.selectedTables = []) :
    step (.clickStart rnd) s = s := by
  simp [step, h]

/-- Witness for C6: the start click is a no-op in the setup screen with no
table selected. -/
theorem c6_start_needs_tables_witness :
    c6SetupState.selectedTables = [] ∧
      step (.clickStart rnd0) c6SetupState = c6SetupState :=
  ⟨rfl, c6_start_needs_tables rnd0 c6SetupState rfl⟩

/-! ## C7 — duplicate submissions are no-ops -/

/-- C7: `handleAnswer` invoked while the feedback state is shown (the
question was already answered) returns the state unchanged: no result is
appended, `currentIndex` does not move, nothing else changes. -/
theorem c7_duplicate_submission (val : Option ℤ) (tt : ℚ) (s : AppState)
    (h : s.showFeedback = true) :
    handleAnswer val tt s = s := by
  simp [handleAnswer, h]

/-- Witness for C7: a duplicate submission during feedback is ignored. -/
theorem c7_duplicate_submission_witness :
    c7FeedbackState.showFeedback = true ∧
      handleAnswer (some 4) 2 c7FeedbackState = c7FeedbackState :=
  ⟨rfl, c7_duplicate_submission (some 4) 2 c7FeedbackState rfl⟩

/-! ## C8 — results/index tracking while playing -/

/-- `handleAnswer` during feedback is the identity (line 271 of the source). -/
lemma handleAnswer_showFeedback (val : Option ℤ) (tt : ℚ) {s : AppState}
    (h : s.showFeedback = true) : handleAnswer val tt s = s := by
  simp [handleAnswer, h]

/-- `handleAnswer` outside feedback appends the evaluated result, shows
feedback, and arms the advance delay. -/
lemma handleAnswer_not_feedback (val : Option ℤ) (tt : ℚ) {s : AppState}
    (h : s.showFeedback = false) :
    handleAnswer val tt s =
      { s with
          results := s.results ++ [evalAnswer val tt s]
          showFeedback := true
          pendingNext := some (s.results ++ [evalAnswer val tt s]) } := by
  simp [handleAnswer, h]

/-- The non-terminal branch of `nextQuestion`. -/
lemma nextQuestion_advances (id date : String) (rs : List Result)
    {s : AppState} (h : s.currentIndex < s.questions.length - 1) :
    nextQuestion id date rs s =
      { s with currentIndex := s.currentIndex + 1, showFeedback := false } := by
  simp [nextQuestion, resetQuestionState, h]

/-- The terminal branch of `nextQuestion` moves to the Results screen. -/
lemma nextQuestion_completes_mode (id date : String) (rs : List Result)
    {s : AppState} (hc : ¬ s.currentIndex < s.questions.length - 1) :
    (nextQuestion id date rs s).mode = GameMode.RESULTS := by
  simp [nextQuestion, hc]

/-- States reachable within one session: a clean session start (no stale
feedback delay pending from before the start) followed by any sequence of
UI events other than a mid-feedback restart. -/
inductive SessionReach : AppState → Prop where
  | base (t : PlayType) (rnd : Rand) (tables : List Nat) (s : AppState)
      (hp : s.pendingNext = none) :
      SessionReach (syncTimerEffect (startSession t rnd tables s))
  | submit (v : ℤ) (tt : ℚ) (s : AppState) :
      SessionReach s → SessionReach (step (.submitAnswer v tt) s)
  | timeout (tt : ℚ) (s : AppState) :
      SessionReach s → SessionReach (step (.timerTimeout tt) s)
  | fire (id date : String) (s : AppState) :
      SessionReach s → SessionReach (step (.delayFire id date) s)
  | menu (s : AppState) :
      SessionReach s → SessionReach (step .clickMenu s)
  | toggle (t : Nat) (s : AppState) :
      SessionReach s → SessionReach (step (.toggleTable t) s)
  | select (t : PlayType) (s : AppState) :
      SessionReach s → SessionReach (step (.selectType t) s)
  | clear (s : AppState) :
      SessionReach s → SessionReach (step .clearHistory s)

/-- The playing-state invariant, strengthened with the pending-delay
bookkeeping needed for induction: while playing there are 40 questions, and
`results` has caught up with `currentIndex` exactly when no feedback delay
is pending. -/
def PlayingInv (s : AppState) : Prop :=
  s.mode = GameMode.PLAYING →
    s.questions.length = 40 ∧
    (s.pendingNext = none →
      s.showFeedback = false ∧ s.results.length = s.currentIndex) ∧
    (∀ rs, s.pendingNext = some rs →
      s.showFeedback = true ∧ s.results.length = s.currentIndex + 1)

lemma playingInv_handleAnswer (val : Option ℤ) (tt : ℚ) {s : AppState}
    (hP : PlayingInv s) :
    PlayingInv (syncTimerEffect (handleAnswer val tt s)) := by
  by_cases hfb : s.showFeedback = true
  · rw [handleAnswer_showFeedback val tt hfb]
    exact hP
  · rw [Bool.not_eq_true] at hfb
    rw [handleAnswer_not_feedback val tt hfb]
    intro hm
    obtain ⟨hq, hnone, hsome⟩ := hP hm
    refine ⟨hq, ?_, ?_⟩
    · intro hpn
      exact Option.noConfusion hpn
    · intro rs _
      refine ⟨rfl, ?_⟩
      have hlen : s.results.length = s.currentIndex := by
        cases hpn : s.pendingNext with
        | none => exact (hnone hpn).2
        | some rs0 =>
            have := (hsome rs0 hpn).1
            rw [hfb] at this
            simp at this
      show (s.results ++ [evalAnswer val tt s]).length = s.currentIndex + 1
      simp [hlen]

lemma sessionReach_playingInv {s : AppState} (hr : SessionReach s) :
    PlayingInv s := by
  induction hr with
  | base t rnd tables s0 hp =>
      intro _
      refine ⟨?_, fun _ => ⟨rfl, rfl⟩, fun rs hrs => ?_⟩
      · exact length_generateQuestions t rnd tables
      · rw [show (syncTimerEffect (startSession t rnd tables s0)).pendingNext
            = s0.pendingNext from rfl, hp] at hrs
        cases hrs
  | submit v tt s hr ih =>
      simp only [step]
      by_cases hm : s.mode = GameMode.PLAYING
      · rw [if_pos hm]
        exact playingInv_handleAnswer (some v) tt ih
      · rw [if_neg hm]
        exact ih
  | timeout tt s hr ih =>
      simp only [step]
      by_cases ht : s.timerActive = true
      · rw [if_pos ht]
        exact playingInv_handleAnswer none tt ih
      · rw [if_neg ht]
        exact ih
  | fire id date s hr ih =>
      simp only [step]
      cases hpn : s.pendingNext with
      | none => exact ih
      | some rs =>
          show PlayingInv (syncTimerEffect
            (nextQuestion id date rs { s with pendingNext := none }))
          by_cases hci : s.currentIndex < s.questions.length - 1
          · have hnq : nextQuestion id date rs { s with pendingNext := none } =
                { s with pendingNext := none,
                         currentIndex := s.currentIndex + 1,
                         showFeedback := false } :=
              nextQuestion_advances id date rs hci
            rw [hnq]
            intro hm
            have hm2 : s.mode = GameMode.PLAYING := hm
            obtain ⟨hq, _, hsome⟩ := ih hm2
            refine ⟨hq, fun _ => ⟨rfl, ?_⟩, fun rs2 hrs2 => ?_⟩
            · show s.results.length = s.currentIndex + 1
              exact (hsome rs hpn).2
            · exact Option.noConfusion hrs2
          · intro hm
            have hmode : (nextQuestion id date rs
                { s with pendingNext := none }).mode = GameMode.RESULTS :=
              nextQuestion_completes_mode id date rs hci
            have hc2 : (nextQuestion id date rs
                { s with pendingNext := none }).mode = GameMode.PLAYING := hm
            rw [hmode] at hc2
            cases hc2
  | menu s hr ih =>
      intro hm
      rw [show (step .clickMenu s).mode = GameMode.MENU from rfl] at hm
      cases hm
  | toggle t s hr ih =>
      simp only [step]
      by_cases hm : s.mode = GameMode.PRACTICE_SETUP
      · rw [if_pos hm]
        exact ih
      · rw [if_neg hm]
        exact ih
  | select t s hr ih =>
      simp only [step]
      by_cases hm : s.mode = GameMode.MENU
      · rw [if_pos hm]
        intro hm2
        cases hm2
      · rw [if_neg hm]
        exact ih
  | clear s hr ih =>
      simp only [step]
      by_cases hm : s.mode = GameMode.MENU
      · rw [if_pos hm]
        exact ih
      · rw [if_neg hm]
        exact ih

/-- A concrete run: start a Test session on table 2 and answer the first
question correctly; the state is then in the feedback interval. -/
def c8FeedbackTrace : AppState :=
  runEvents [.selectType PlayType.TEST, .toggleTable 2, .clickStart rnd0,
    .submitAnswer 2 0] initState

/-- C8 counterexample: in the feedback interval after answering the first
question, the session is still in `PLAYING` but `results.length = 1` while
`currentIndex = 0`, so the claimed equality fails at this observable point. -/
theorem c8_feedback_interval_counterexample :
    c8FeedbackTrace.mode = GameMode.PLAYING ∧
    c8FeedbackTrace.showFeedback = true ∧
    ¬ c8FeedbackTrace.results.length = c8FeedbackTrace.currentIndex := by
  refine ⟨by decide, by decide, by decide⟩

/-- C8 (amended): in any session run started with no stale feedback delay,
while the mode is `PLAYING` the question list has length 40,
`results.length = currentIndex` whenever feedback is not showing, and
`results.length = currentIndex + 1` during the feedback interval. -/
theorem c8_results_tracks_index {s : AppState} (hr : SessionReach s)
    (hm : s.mode = GameMode.PLAYING) :
    s.questions.length = 40 ∧
    (s.showFeedback = false → s.results.length = s.currentIndex) ∧
    (s.showFeedback = true → s.results.length = s.currentIndex + 1) := by
  obtain ⟨hq, hnone, hsome⟩ := sessionReach_playingInv hr hm
  refine ⟨hq, ?_, ?_⟩
  · intro hfb
    cases hpn : s.pendingNext with
    | none => exact (hnone hpn).2
    | some rs =>
        have := (hsome rs hpn).1
        rw [hfb] at this
        simp at this
  · intro hfb
    cases hpn : s.pendingNext with
    | none =>
        have := (hnone hpn).1
        rw [hfb] at this
        simp at this
    | some rs => exact (hsome rs hpn).2

/-- Witness for C8 (amended): the state right after starting a Test session
on table 2. -/
theorem c8_results_tracks_index_witness :
    (syncTimerEffect (startSession PlayType.TEST rnd0 [2] initState)).mode =
        GameMode.PLAYING ∧
      ((syncTimerEffect (startSession PlayType.TEST rnd0 [2]
          initState)).questions.length = 40 ∧
       ((syncTimerEffect (startSession PlayType.TEST rnd0 [2]
            initState)).showFeedback = false →
          (syncTimerEffect (startSession PlayType.TEST rnd0 [2]
            initState)).results.length =
            (syncTimerEffect (startSession PlayType.TEST rnd0 [2]
              initState)).currentIndex) ∧
       ((syncTimerEffect (startSession PlayType.TEST rnd0 [2]
            initState)).showFeedback = true →
          (syncTimerEffect (startSession PlayType.TEST rnd0 [2]
            initState)).results.length =
            (syncTimerEffect (startSession PlayType.TEST rnd0 [2]
              initState)).currentIndex + 1)) :=
  ⟨by decide,
    c8_results_tracks_index
      (SessionReach.base PlayType.TEST rnd0 [2] initState rfl) (by decide)⟩

/-! ## C9 — cancellation on leaving Playing -/

/-- A concrete run: start a Test session on table 2, answer the first
question correctly (arming the feedback delay), then return to the menu
during the feedback interval. -/
def c9MenuTrace : AppState :=
  runEvents [.selectType PlayType.TEST, .toggleTable 2, .clickStart rnd0,
    .submitAnswer 2 0, .clickMenu] initState

/-- C9: leaving `PLAYING` for the menu does clear the countdown interval
(the stale timeout is a no-op and appends no Result), but the feedback
delay armed by `handleAnswer` is never cancelled: when it fires after the
session was discarded, the stale `nextQuestion` callback still mutates
state, advancing `currentIndex` from 0 to 1 while the app sits in the
menu — contradicting the claimed cancellation of every pending callback. -/
theorem c9_stale_delay_mutates :
    c9MenuTrace.mode = GameMode.MENU ∧
    c9MenuTrace.timerActive = false ∧
    (step (.timerTimeout 6) c9MenuTrace).results.length =
      c9MenuTrace.results.length ∧
    c9MenuTrace.currentIndex = 0 ∧
    (step (.delayFire "1" "d") c9MenuTrace).currentIndex = 1 ∧
    (step (.delayFire "1" "d") c9MenuTrace).mode = GameMode.MENU := by
  refine ⟨by decide, by decide, by decide, by decide, by decide, by decide⟩

/-! ## C10 — stored and displayed pass flags agree -/

/-- C10: the pass flag stored by `nextQuestion` and the Results screen's
`isPassed` are separate expressions that agree on every session type and
result list (they compute the same correct count and point total; the
screen's extra null-stats guard changes nothing because an empty result
list meets neither threshold). -/
theorem c10_displayed_eq_stored (pt : PlayType) (rs : List Result) :
    isPassed pt rs = sessionPassed pt (totalCorrectOf rs) (totalPointsOf rs) := by
  cases rs with
  | nil =>
      simp [isPassed, statsOf, sessionPassed, totalCorrectOf, totalPointsOf,
        PASS_SCORE_THRESHOLD, PASS_SPEED_THRESHOLD]
  | cons r rs =>
      simp [isPassed, statsOf, sessionPassed]

end Multiplikationskoll
